import Mathlib

/-!
Verification development for the rail-dashboard simulation playback core.

The definitions below are a shallow embedding of the TypeScript source:
the simulation session state and its operations from
src/frontend simulation/src/contexts/SimulationContext.tsx,
the playback control component from
src/frontend simulation/src/components/simulation/SimulationControl.tsx,
and the position interpolation from
src/frontend simulation/src/components/operations/NetworkMap.tsx.
Times, delays and coordinates are JavaScript numbers in the source and are
modelled as rationals.
-/

namespace RailDashboard

/-- One simulation log entry, after the SimulationLog interface of
simulationApi.ts. -/
structure SimulationLog where
  time : ℚ
  train_id : String
  current_block : Option String := none
  current_station : Option String := none
  status : String := ""
  delay : ℚ := 0
  speed : ℚ := 0
  position : Option (ℚ × ℚ) := none
deriving DecidableEq

/-- Run metrics, after the SimulationMetrics interface of simulationApi.ts. -/
structure SimulationMetrics where
  total_delays : ℚ
  max_delay : ℚ
  average_delay : ℚ
  total_throughput : ℚ
  conflict_count : ℚ
  simulation_time : ℚ
deriving DecidableEq

/-- A train descriptor, after the TrainInput interface of simulationApi.ts. -/
structure TrainInput where
  id : String
  name : String
  from_station : String
  to_station : String
  departure_time : ℚ
  arrival_time : ℚ
  priority : ℚ
  train_type : String
  max_speed : ℚ
  length : ℚ
  max_capacity : ℚ
deriving DecidableEq

/-- The SimulationState record held by the provider in SimulationContext.tsx.
The network payload has TypeScript type any, so it is kept as a type
parameter. -/
structure SimState (Net : Type) where
  isRunning : Bool
  logs : List SimulationLog
  metrics : Option SimulationMetrics
  network : Option Net
  currentTime : ℚ
  trains : List TrainInput
  error : Option String

/-- Math.abs of the source, in executable form. -/
def jsAbs (q : ℚ) : ℚ := if q < 0 then -q else q

/-- Embedding of getTrainAtTime from SimulationContext.tsx: filter the log
list to the given train, then take the first entry whose time is within
strict distance 1 of the query time (Math.abs(log.time - time) < 1). -/
def getTrainAtTime (logs : List SimulationLog) (trainId : String) (time : ℚ) :
    Option SimulationLog :=
  let trainLogs := logs.filter (fun log => log.train_id == trainId)
  trainLogs.find? (fun log => decide (jsAbs (log.time - time) < 1))

/-- Embedding of getTrainsAtTime from SimulationContext.tsx: all log entries
whose time is within strict distance 1 of the query time. -/
def getTrainsAtTime (logs : List SimulationLog) (time : ℚ) :
    List SimulationLog :=
  logs.filter (fun log => decide (jsAbs (log.time - time) < 1))

/-- Embedding of setCurrentTime from SimulationContext.tsx: stores the given
time into the state, touching no other field. -/
def setCurrentTime {Net : Type} (st : SimState Net) (time : ℚ) : SimState Net :=
  { st with currentTime := time }

/-- Outcome of one round trip to the solver, as observed by runSimulation:
either a success response carrying logs, metrics and network, a response
with success set to false carrying an optional message, or a thrown
transport error whose message is absent when the thrown value is not an
Error instance. -/
inductive RunResult (Net : Type) where
  | ok (logs : List SimulationLog) (metrics : SimulationMetrics)
      (network : Option Net)
  | failed (message : Option String)
  | threw (message : Option String)

/-- JavaScript truthiness fallback for strings, as in
response.message with a default after the or-operator: an absent or empty
message falls back to the default. -/
def orDefault (m : Option String) (d : String) : String :=
  match m with
  | some s => if s = "" then d else s
  | none => d

/-- Embedding of runSimulation from SimulationContext.tsx as a state
transformer: the first setState marks the run in flight and clears the
error, then the response is dispatched. On success the logs, metrics,
network and trains are installed and currentTime is reset to 0; on a
solver failure or a thrown transport error only the error string is set
and isRunning is cleared. -/
def runSimulation {Net : Type} (st : SimState Net) (trains : List TrainInput)
    (resp : RunResult Net) : SimState Net :=
  let st1 := { st with isRunning := true, error := none }
  match resp with
  | .ok logs metrics network =>
      { st1 with
        logs := logs
        metrics := some metrics
        network := network
        trains := trains
        isRunning := false
        currentTime := 0 }
  | .failed message =>
      { st1 with
        error := some (orDefault message "Simulation failed")
        isRunning := false }
  | .threw message =>
      { st1 with
        error := some (message.getD "Unknown error occurred")
        isRunning := false }

/-- True exactly on the two failure outcomes of a run. -/
def isFailureResult {Net : Type} : RunResult Net → Bool
  | .ok _ _ _ => false
  | .failed _ => true
  | .threw _ => true

/-! The playback control component, SimulationControl.tsx. -/

/-- A JavaScript runtime value that may sit in the currentTime field: the
source is dynamically typed at this point, because the auto-play interval
callback passes an updater function where the setter expects a number. -/
inductive JSVal where
  | num (q : ℚ)
  | fn (f : ℚ → ℚ)

/-- Discriminator: is the value a number. -/
def JSVal.isNum : JSVal → Bool
  | .num _ => true
  | .fn _ => false

/-- The state visible to the SimulationControl component: its local
isPlaying and playbackSpeed hooks together with the logs and currentTime
it reads from the simulation context. currentTime is kept as a dynamic
value, see JSVal. -/
structure CtlState where
  isPlaying : Bool
  playbackSpeed : ℚ
  logs : List SimulationLog
  currentTime : JSVal

/-- Math.max over the log times, as computed in SimulationControl.tsx
(0 for an empty log, matching the guarded display expression). -/
def maxLogTimeOf (logs : List SimulationLog) : ℚ :=
  match logs with
  | [] => 0
  | l :: ls => ls.foldl (fun acc e => max acc e.time) l.time

/-- The updater closure built by the auto-play interval callback in
SimulationControl.tsx: advance by playbackSpeed * 10 and clamp to the
maximum log time once reached. The setIsPlaying(false) side effect inside
its first branch is omitted here because the closure is never invoked by
the program (see intervalTick). -/
def autoPlayUpdater (playbackSpeed maxLogTime : ℚ) : ℚ → ℚ :=
  fun prev =>
    let nextTime := prev + playbackSpeed * 10
    if maxLogTime ≤ nextTime then maxLogTime else nextTime

/-- One firing of the auto-play interval in SimulationControl.tsx. The
interval exists only while isPlaying holds and the log is non-empty; its
callback calls setCurrentTime with the updater closure as argument, and
setCurrentTime stores its argument verbatim into currentTime. The closure
itself is never applied, so currentTime ends up holding a function value. -/
def intervalTick (st : CtlState) : CtlState :=
  if st.isPlaying && !st.logs.isEmpty then
    { st with
      currentTime :=
        JSVal.fn (autoPlayUpdater st.playbackSpeed (maxLogTimeOf st.logs)) }
  else st

/-- The two hard-coded sample trains of handlePlay in
SimulationControl.tsx. -/
def sampleTrains : List TrainInput :=
  [ { id := "T001", name := "Express Alpha", from_station := "S1",
      to_station := "S2", departure_time := 0, arrival_time := 1800,
      priority := 1, train_type := "Express", max_speed := 120,
      length := 200, max_capacity := 500 },
    { id := "T002", name := "Local Beta", from_station := "S1",
      to_station := "S2", departure_time := 300, arrival_time := 2400,
      priority := 2, train_type := "Local", max_speed := 100,
      length := 180, max_capacity := 400 } ]

/-- Observable effect of a press of the play button. The constructor
rejectedNoData stands for the no-data-to-play rejection signal that the
specification describes; the source never produces it. -/
inductive PlayEffect where
  | runSampleSimulation (trains : List TrainInput) (priorityRule : String)
      (maxTime : ℚ)
  | startedPlayback
  | rejectedNoData
deriving DecidableEq

/-- Discriminator for the rejection signal. -/
def PlayEffect.isRejectedNoData : PlayEffect → Bool
  | .rejectedNoData => true
  | _ => false

/-- Embedding of handlePlay from SimulationControl.tsx: with an empty log
it submits a run of the two sample trains and leaves the playing flag
untouched; otherwise it sets the playing flag. The returned pair is the
new playing flag and the emitted effect. -/
def handlePlay (logs : List SimulationLog) (isPlaying : Bool)
    (priorityRule : String) (maxTime : ℚ) : Bool × PlayEffect :=
  if logs.isEmpty then
    (isPlaying, .runSampleSimulation sampleTrains priorityRule maxTime)
  else
    (true, .startedPlayback)

/-- Embedding of the playback speed setter in SimulationControl.tsx: the
raw useState setter, stored with no validation. -/
def setPlaybackSpeed (st : CtlState) (v : ℚ) : CtlState :=
  { st with playbackSpeed := v }

/-! Position interpolation, NetworkMap.tsx. -/

/-- Embedding of the in-transit position update in NetworkMap.tsx:
componentwise origin + (destination - origin) * progress. -/
def interpolatePosition (origin destination : ℚ × ℚ) (progress : ℚ) :
    ℚ × ℚ :=
  (origin.1 + (destination.1 - origin.1) * progress,
   origin.2 + (destination.2 - origin.2) * progress)

/-- Modelled from the spec: the atTime query of the LogIndex as the
specification words it, for comparison with getTrainAtTime. Among the
entries of the given train whose time is within the inclusive tolerance
of the query time, it returns the one minimizing the distance, the
later-ingested entry winning exact ties; the tolerance is an explicit
parameter. -/
def atTimeSpec (logs : List SimulationLog) (trainId : String) (t tol : ℚ) :
    Option SimulationLog :=
  (logs.filter
      (fun e => e.train_id == trainId && decide (jsAbs (e.time - t) ≤ tol))).foldl
    (fun best e =>
      match best with
      | none => some e
      | some b =>
          if jsAbs (e.time - t) ≤ jsAbs (b.time - t) then some e else some b)
    none

/-! Concrete fixtures used by counterexamples and witnesses. -/

/-- A log entry for train A at time 0. -/
def eA0 : SimulationLog := { time := 0, train_id := "A" }

/-- A log entry for train A at time 1. -/
def eA1 : SimulationLog := { time := 1, train_id := "A" }

/-- A two-entry log for train A, at times 0 and 1. -/
def tieLogs : List SimulationLog := [eA0, eA1]

/-! Helper lemmas. -/

/-- The executable Math.abs agrees with the absolute value. -/
theorem jsAbs_eq_abs (q : ℚ) : jsAbs q = |q| := by
  unfold jsAbs
  rcases lt_or_ge q 0 with h | h
  · rw [if_pos h, abs_of_neg h]
  · rw [if_neg (not_lt.mpr h), abs_of_nonneg h]

/-- Finding in a filtered list is finding with the conjoined predicate. -/
theorem filter_find?_comm {α : Type} (l : List α) (p q : α → Bool) :
    (l.filter p).find? q = l.find? (fun a => p a && q a) := by
  induction l with
  | nil => rfl
  | cons a l ih =>
    rw [List.filter_cons]
    by_cases hp : p a = true
    · rw [if_pos hp]
      by_cases hq : q a = true
      · rw [List.find?_cons_of_pos _ hq, List.find?_cons_of_pos]
        simp [hp, hq]
      · rw [List.find?_cons_of_neg _ hq, ih, List.find?_cons_of_neg]
        simp [hp, hq]
    · rw [if_neg hp, ih, List.find?_cons_of_neg]
      simp [hp]

/-! Theorems about the claims. -/

/-- C1 (amended): getTrainAtTime returns the first entry in ingestion
order for the given train whose time lies strictly within distance 1 of
the query time; every earlier-ingested entry of that train lies outside
the window. It does not select the nearest entry, and on equal distances
the earlier-ingested entry wins. -/
theorem getTrainAtTime_first_in_window (logs : List SimulationLog)
    (trainId : String) (t : ℚ) (e : SimulationLog)
    (h : getTrainAtTime logs trainId t = some e) :
    e ∈ logs ∧ e.train_id = trainId ∧ |e.time - t| < 1 ∧
      ∃ l1 l2, logs = l1 ++ e :: l2 ∧
        ∀ e2 ∈ l1, e2.train_id = trainId → 1 ≤ |e2.time - t| := by
  unfold getTrainAtTime at h
  rw [filter_find?_comm, List.find?_eq_some] at h
  obtain ⟨hpe, l1, l2, hsplit, hall⟩ := h
  simp only [Bool.and_eq_true, beq_iff_eq, decide_eq_true_eq,
    jsAbs_eq_abs] at hpe
  refine ⟨?_, hpe.1, hpe.2, l1, l2, hsplit, ?_⟩
  · rw [hsplit]; simp
  · intro e2 he2 hid
    have := hall e2 he2
    simp only [Bool.not_eq_eq_eq_not, Bool.not_true, Bool.and_eq_false_iff,
      beq_eq_false_iff_ne, decide_eq_false_iff_not, jsAbs_eq_abs] at this
    rcases this with h1 | h2
    · exact absurd hid h1
    · exact not_lt.mp h2

/-- Witness for getTrainAtTime_first_in_window at a concrete input. -/
theorem getTrainAtTime_first_in_window_witness :
    eA0 ∈ [eA0] ∧ eA0.train_id = "A" ∧ |eA0.time - 0| < 1 ∧
      ∃ l1 l2, [eA0] = l1 ++ eA0 :: l2 ∧
        ∀ e2 ∈ l1, e2.train_id = "A" → 1 ≤ |e2.time - 0| :=
  getTrainAtTime_first_in_window [eA0] "A" 0 eA0
    (by simp [getTrainAtTime, eA0, jsAbs, List.filter_cons, List.find?_cons])

/-- C1 (counterexample): with entries for train A at times 0 and 1 and a
query at time 1/2, both entries are at the same distance 1/2, yet
getTrainAtTime returns the earlier-ingested entry, not the later one as
the claim requires. -/
theorem getTrainAtTime_tie_returns_earlier :
    getTrainAtTime tieLogs "A" (1/2) = some eA0 ∧
      |eA0.time - 1/2| = |eA1.time - 1/2| ∧ eA0.time = 0 ∧ eA1.time = 1 := by
  refine ⟨?_, ?_, rfl, rfl⟩
  · norm_num [getTrainAtTime, tieLogs, eA0, eA1, jsAbs, List.filter_cons,
      List.find?_cons]
  · norm_num [eA0, eA1, abs_of_nonneg, abs_of_nonpos]

/-- C2 (amended): getTrainsAtTime returns exactly the entries, of any
train, whose time lies strictly within distance 1 of the query time; it
does not reduce them to one entry per train. -/
theorem getTrainsAtTime_mem_iff (logs : List SimulationLog) (t : ℚ)
    (e : SimulationLog) :
    e ∈ getTrainsAtTime logs t ↔ e ∈ logs ∧ |e.time - t| < 1 := by
  simp [getTrainsAtTime, List.mem_filter, jsAbs_eq_abs]

/-- C2 (counterexample): with entries for train A at times 0 and 1 and a
query at time 1/2, getTrainsAtTime returns both entries, two results for
the same train id. -/
theorem getTrainsAtTime_duplicate_train :
    getTrainsAtTime tieLogs (1/2) = [eA0, eA1] ∧
      eA0.train_id = eA1.train_id ∧ eA0.time = 0 ∧ eA1.time = 1 := by
  refine ⟨?_, rfl, rfl, rfl⟩
  norm_num [getTrainsAtTime, tieLogs, eA0, eA1, jsAbs, List.filter_cons]

/-- C7 (amended): getTrainAtTime returns an entry exactly when some entry
for the train has time strictly within distance 1 of the query time; the
window is hard-coded, strict, and not a parameter of the function. -/
theorem getTrainAtTime_isSome_iff (logs : List SimulationLog)
    (trainId : String) (t : ℚ) :
    (getTrainAtTime logs trainId t).isSome = true ↔
      ∃ e ∈ logs, e.train_id = trainId ∧ |e.time - t| < 1 := by
  simp [getTrainAtTime, List.find?_isSome, List.mem_filter, and_assoc,
    jsAbs_eq_abs]

/-- C7 (counterexample): an entry at distance exactly the default
tolerance 1 is matched by the specified inclusive rule but missed by
getTrainAtTime, whose hard-coded window is strict. -/
theorem getTrainAtTime_boundary_mismatch :
    atTimeSpec [eA1] "A" 0 1 = some eA1 ∧
      getTrainAtTime [eA1] "A" 0 = none := by
  constructor
  · norm_num [atTimeSpec, eA1, jsAbs, List.filter_cons]
  · norm_num [getTrainAtTime, eA1, jsAbs, List.filter_cons, List.find?_cons]

/-- C3 (counterexample): a press of play with an empty log and the default
control settings submits a run of the two hard-coded sample trains; no
no-data-to-play rejection signal is produced. -/
theorem handlePlay_empty_runs_sample_not_reject :
    handlePlay [] false "priority" 3600 =
      (false, .runSampleSimulation sampleTrains "priority" 3600) ∧
      (handlePlay [] false "priority" 3600).2.isRejectedNoData = false :=
  ⟨rfl, rfl⟩

/-- C3 (amended): whenever the log is empty, a press of play leaves the
playing flag unchanged, so the clock does not enter Playing; instead of a
no-data-to-play rejection it submits a sample simulation run with the two
hard-coded trains and the current priority rule and max time. -/
theorem handlePlay_empty_no_playing (playing : Bool) (pr : String) (mt : ℚ) :
    handlePlay [] playing pr mt =
      (playing, .runSampleSimulation sampleTrains pr mt) :=
  rfl

/-- C4 (confirmed): when a run fails, by a solver response with success
false or by a thrown transport error, the previously installed logs,
network, metrics, playback time and trains are unchanged, and a failure
reason string is the only report. -/
theorem runSimulation_failure_preserves_state {Net : Type}
    (st : SimState Net) (trains : List TrainInput) (resp : RunResult Net)
    (h : isFailureResult resp = true) :
    (runSimulation st trains resp).logs = st.logs ∧
      (runSimulation st trains resp).network = st.network ∧
      (runSimulation st trains resp).metrics = st.metrics ∧
      (runSimulation st trains resp).currentTime = st.currentTime ∧
      (runSimulation st trains resp).trains = st.trains ∧
      ∃ reason, (runSimulation st trains resp).error = some reason := by
  cases resp with
  | ok l m n => simp [isFailureResult] at h
  | failed msg => exact ⟨rfl, rfl, rfl, rfl, rfl, _, rfl⟩
  | threw msg => exact ⟨rfl, rfl, rfl, rfl, rfl, _, rfl⟩

/-- A concrete prior session state with installed data and a nonzero
playback time. -/
def st0 : SimState Unit :=
  { isRunning := false, logs := tieLogs, metrics := none, network := none,
    currentTime := 7, trains := [], error := none }

/-- Witness for runSimulation_failure_preserves_state at a concrete
state and a concrete solver failure. -/
theorem runSimulation_failure_preserves_state_witness :
    isFailureResult (RunResult.failed (some "boom") : RunResult Unit) =
        true ∧
      ((runSimulation st0 sampleTrains (.failed (some "boom"))).logs =
          st0.logs ∧
        (runSimulation st0 sampleTrains (.failed (some "boom"))).network =
          st0.network ∧
        (runSimulation st0 sampleTrains (.failed (some "boom"))).metrics =
          st0.metrics ∧
        (runSimulation st0 sampleTrains (.failed (some "boom"))).currentTime =
          st0.currentTime ∧
        (runSimulation st0 sampleTrains (.failed (some "boom"))).trains =
          st0.trains ∧
        ∃ reason,
          (runSimulation st0 sampleTrains (.failed (some "boom"))).error =
            some reason) :=
  ⟨rfl, runSimulation_failure_preserves_state st0 sampleTrains
    (.failed (some "boom")) rfl⟩

/-- A log entry for train A at time 100. -/
def eA100 : SimulationLog := { time := 100, train_id := "A" }

/-- A control state in the middle of a play-through: playing, speed 1, a
non-empty log, and a numeric current time. -/
def ctlPlaying : CtlState :=
  { isPlaying := true, playbackSpeed := 1, logs := [eA100],
    currentTime := JSVal.num 0 }

/-- C5 (code bug): on a tick of the auto-play interval in a playing state
with a non-empty log, the value stored into currentTime is not a number:
the callback hands the updater closure itself to setCurrentTime, whose
declared parameter type is number and which stores its argument verbatim.
The second conjunct shows the numeric advance the updater would have
computed had it been applied: from time 0 at speed 1 it yields 10, below
the maximum log time 100, so the claimed clamp-and-pause never runs. -/
theorem intervalTick_stores_function :
    ((intervalTick ctlPlaying).currentTime).isNum = false ∧
      autoPlayUpdater 1 (maxLogTimeOf [eA100]) 0 = 10 := by
  constructor
  · rfl
  · norm_num [autoPlayUpdater, maxLogTimeOf, eA100]

/-- C6 (counterexample): seeking to -5 from a state whose maximum log
time is 1 stores -5 itself: the stored playback time is negative, so no
clamping to the interval from 0 to maxTime happens. -/
theorem setCurrentTime_no_clamp_counterexample :
    (setCurrentTime st0 (-5)).currentTime = -5 ∧ (-5 : ℚ) < 0 ∧
      maxLogTimeOf st0.logs = 1 := by
  refine ⟨rfl, by norm_num, ?_⟩
  norm_num [maxLogTimeOf, st0, tieLogs, eA0, eA1]

/-- C6 (amended): setCurrentTime stores the given time unchanged, with no
clamping of any kind; the stored value can be negative and can exceed the
maximum log time. -/
theorem setCurrentTime_stores_unclamped {Net : Type} (st : SimState Net)
    (t : ℚ) : (setCurrentTime st t).currentTime = t :=
  rfl

/-- C8 (counterexample): supplying -1 to the playback speed setter stores
-1 as the speed: the negative value is accepted, not rejected as an
invalid configuration and not clamped. -/
theorem setPlaybackSpeed_accepts_negative :
    (setPlaybackSpeed ctlPlaying (-1)).playbackSpeed = -1 ∧ (-1 : ℚ) < 0 :=
  ⟨rfl, by norm_num⟩

/-- C8 (amended): the playback speed setter stores any supplied value
unchanged, zero and negative values included, with no validation and no
effect on any other field; rejection of non-positive speeds does not
exist in the code. -/
theorem setPlaybackSpeed_stores_any (st : CtlState) (v : ℚ) :
    (setPlaybackSpeed st v).playbackSpeed = v ∧
      (setPlaybackSpeed st v).isPlaying = st.isPlaying ∧
      (setPlaybackSpeed st v).logs = st.logs ∧
      (setPlaybackSpeed st v).currentTime = st.currentTime :=
  ⟨rfl, rfl, rfl, rfl⟩

/-- C9 (confirmed): the in-transit position update is the exact linear
interpolation between origin and destination, equal to the convex
combination of the endpoints, and at the concrete input of the claim it
yields the midpoint: interpolating from the origin point (0,0) to (10,0)
at progress 1/2 gives (5,0). -/
theorem interpolatePosition_linear :
    (∀ ox oy dx dy p : ℚ,
        interpolatePosition (ox, oy) (dx, dy) p =
          ((1 - p) * ox + p * dx, (1 - p) * oy + p * dy)) ∧
      interpolatePosition (0, 0) (10, 0) (1/2) = (5, 0) := by
  constructor
  · intro ox oy dx dy p
    simp only [interpolatePosition, Prod.mk.injEq]
    constructor <;> ring
  · norm_num [interpolatePosition]

/-- C10 (confirmed): setCurrentTime modifies only the currentTime field;
logs, metrics, network, trains, isRunning and error are unchanged. -/
theorem setCurrentTime_frame_effect {Net : Type} (st : SimState Net)
    (t : ℚ) :
    (setCurrentTime st t).logs = st.logs ∧
      (setCurrentTime st t).metrics = st.metrics ∧
      (setCurrentTime st t).network = st.network ∧
      (setCurrentTime st t).trains = st.trains ∧
      (setCurrentTime st t).isRunning = st.isRunning ∧
      (setCurrentTime st t).error = st.error :=
  ⟨rfl, rfl, rfl, rfl, rfl, rfl⟩

end RailDashboard
